import Mathlib

/-!
Verification of the Perplexity search MCP adapter (src/index.ts).

The adapter is a single tool handler: it builds an outbound JSON payload from
the configuration and the request, performs one HTTP POST (modelled here as an
input `FetchOutcome`, since the remote endpoint is outside the program), and
maps the response or failure into a tool result `{text, isError}`.

JavaScript runtime values produced by `JSON.parse` are modelled by the `Json`
inductive (numbers as rationals carrying the literal's exact value).  The JS
`undefined` value, which can appear during property access, is modelled as
`Option Json` with `none` for `undefined`.  Property access that throws a
`TypeError` (reading a property of `null`/`undefined`) is modelled in the
`Except JsError` monad; a thrown value is either an `Error` object carrying a
message or a non-`Error` value, matching the handler's
`error instanceof Error` test.
-/

namespace PerplexitySearch

/-- Runtime values produced by `JSON.parse`. -/
inductive Json where
  | null
  | bool (b : Bool)
  | num (q : ℚ)
  | str (s : String)
  | arr (elems : List Json)
  | obj (fields : List (String × Json))
deriving Repr

/-- Values thrown in JS: an `Error` instance with its `message`, or any
non-`Error` value (the handler only distinguishes these two cases). -/
inductive JsError where
  | errorObj (message : String)
  | nonError
deriving Repr, DecidableEq

/-- First binding of a key in a JS object literal built by `JSON.parse`
(duplicate keys cannot survive `JSON.parse`, which keeps the last one; we
model lookup of the first binding, which is the only one in parsed data). -/
def lookupField : List (String × Json) → String → Option Json
  | [], _ => none
  | (k, v) :: fs, key => if k = key then some v else lookupField fs key

/-- JS truthiness of a defined value (used by `||` and `if`). -/
def Json.truthy : Json → Bool
  | .null => false
  | .bool b => b
  | .num q => decide (q ≠ 0)
  | .str s => decide (s ≠ "")
  | .arr _ => true
  | .obj _ => true

/-- JS truthiness where `none` models `undefined`. -/
def truthyVal : Option Json → Bool
  | none => false
  | some j => j.truthy

/-- Decimal digit test on a character code. -/
def isDigitCh (c : Char) : Bool := 48 ≤ c.toNat && c.toNat ≤ 57

/-- Value of a digit string continuing the accumulator, `none` on a
non-digit. -/
def digitsVal : List Char → Nat → Option Nat
  | [], acc => some acc
  | c :: cs, acc =>
      if isDigitCh c then digitsVal cs (acc * 10 + (c.toNat - 48)) else none

/-- A JS canonical array-index key: a decimal numeral without leading zeros
("0" is canonical, "00" and "01" are not — JS treats non-canonical numeric
strings as plain property names, which parsed arrays and strings lack). -/
def canonicalIndex : String → Option Nat
  | key =>
    match key.data with
    | [] => none
    | c :: cs =>
        if isDigitCh c then
          if c.toNat = 48 ∧ cs ≠ [] then none
          else digitsVal cs (c.toNat - 48)
        else none

/-- JS property access `base[key]`: throws a `TypeError` on `undefined` or
`null` bases, looks up object fields, resolves canonical numeric keys on
arrays and strings, and yields `undefined` on other primitives. -/
def getProp : Option Json → String → Except JsError (Option Json)
  | none, key =>
      .error (.errorObj ("Cannot read properties of undefined (reading " ++ key ++ ")"))
  | some .null, key =>
      .error (.errorObj ("Cannot read properties of null (reading " ++ key ++ ")"))
  | some (.obj fs), key => .ok (lookupField fs key)
  | some (.arr xs), key =>
      .ok (match canonicalIndex key with
        | some i => xs.get? i
        | none => none)
  | some (.str s), key =>
      .ok (match canonicalIndex key with
        | some i => (s.data.get? i).map (fun c => Json.str (String.mk [c]))
        | none => none)
  | some (.bool _), _ => .ok none
  | some (.num _), _ => .ok none

/-- Parsed configuration, after `configSchema.parse` (index.ts line 25). -/
structure Config where
  perplexityApiKey : String
  model : String
  maxTokens : ℚ
  temperature : ℚ
deriving Repr, DecidableEq

/-- Raw configuration object handed to `createServer`; `none` models an
absent (`undefined`) field, on which zod applies the declared default. -/
structure RawConfig where
  perplexityApiKey : Option Json
  model : Option Json
  maxTokens : Option Json
  temperature : Option Json
deriving Repr

/-- Field schemas of the zod `configSchema` (index.ts lines 11-16), applied
by `configSchema.parse` on line 25. The required `z.string()` field accepts
exactly strings. -/
def parseKeyField : Option Json → Except String String
  | some (.str s) => .ok s
  | _ => .error "perplexityApiKey must be a string"

/-- The `z.enum` with default of the `model` field: the default applies to
an absent (`undefined`) field, any present value must be one of the two
string literals. -/
def parseModelField : Option Json → Except String String
  | none => .ok "sonar-pro"
  | some (.str s) =>
      if s = "sonar" ∨ s = "sonar-pro" then .ok s
      else .error "invalid enum value for model"
  | some _ => .error "invalid enum value for model"

/-- A `z.number().default(d)` field schema: any number passes unvalidated,
an absent field takes the default. -/
def parseNumField (dflt : ℚ) : Option Json → Except String ℚ
  | none => .ok dflt
  | some (.num q) => .ok q
  | some _ => .error "expected a number"

/-- The whole object parse: each field by its field schema, failing when any
field does. -/
def parseConfig (r : RawConfig) : Except String Config :=
  match parseKeyField r.perplexityApiKey, parseModelField r.model,
        parseNumField 8192 r.maxTokens, parseNumField 0.2 r.temperature with
  | .ok key, .ok m, .ok mt, .ok tp => .ok ⟨key, m, mt, tp⟩
  | .error e, _, _, _ => .error e
  | _, .error e, _, _ => .error e
  | _, _, .error e, _ => .error e
  | _, _, _, .error e => .error e

/-- The four recognized recency-filter tokens of the tool input schema. -/
inductive RecencyFilter where
  | month
  | week
  | day
  | hour
deriving Repr, DecidableEq

/-- The string the tool receives for each recency-filter token. -/
def RecencyFilter.toStr : RecencyFilter → String
  | .month => "month"
  | .week => "week"
  | .day => "day"
  | .hour => "hour"

/-- The outbound request body of index.ts lines 49-64: the fixed base object
`{model, messages, max_tokens, temperature}` in insertion order, with
`search_recency_filter` appended exactly when the filter was supplied (the
schema makes the supplied value one of the four non-empty tokens, so the JS
truthiness test on it coincides with presence). -/
def buildPayload (cfg : Config) (query : String) (srf : Option RecencyFilter) :
    List (String × Json) :=
  [("model", .str cfg.model),
   ("messages", .arr [.obj [("role", .str "user"), ("content", .str query)]]),
   ("max_tokens", .num cfg.maxTokens),
   ("temperature", .num cfg.temperature)]
  ++ match srf with
     | some f => [("search_recency_filter", .str f.toStr)]
     | none => []

/-- Hexadecimal digit used in `\uXXXX` escapes. -/
def hexDigit (n : Nat) : String :=
  String.mk [(("0123456789abcdef".data).getD n (Char.ofNat 48))]

/-- JSON.stringify escaping of one character of a string. -/
def escChar (c : Char) : String :=
  if c.toNat = 34 then "\\\""
  else if c.toNat = 92 then "\\\\"
  else if c.toNat = 10 then "\\n"
  else if c.toNat = 13 then "\\r"
  else if c.toNat = 9 then "\\t"
  else if c.toNat = 8 then "\\b"
  else if c.toNat = 12 then "\\f"
  else if c.toNat < 32 then "\\u00" ++ hexDigit (c.toNat / 16) ++ hexDigit (c.toNat % 16)
  else String.mk [c]

/-- JSON.stringify quoting of a string. -/
def quoteStr (s : String) : String :=
  "\"" ++ String.join (s.data.map escChar) ++ "\""

/-- Fractional decimal digits of the fraction `r / d` (`0 < r < d`), with
fuel; terminates exactly (before the fuel runs out) on the decimal fractions
JS doubles print as. -/
def fracDigits : Nat → Nat → Nat → String
  | 0, _, _ => ""
  | fuel + 1, r, d =>
      if r = 0 then ""
      else toString (r * 10 / d) ++ fracDigits fuel (r * 10 % d) d

/-- Decimal rendering of a JSON number, approximating JS number-to-string
(exact on integers and terminating decimal fractions, the only numbers the
adapter ever renders). -/
def numToStr (q : ℚ) : String :=
  let sign := if q.num < 0 then "-" else ""
  let n := q.num.natAbs
  let d := q.den
  if n % d = 0 then sign ++ toString (n / d)
  else sign ++ toString (n / d) ++ "." ++ fracDigits 64 (n % d) d

mutual

/-- JS string conversion of a value, as used by the template literal
`Perplexity API error: ${errorMessage}` (index.ts line 89). -/
def jsDisplay : Json → String
  | .null => "null"
  | .bool true => "true"
  | .bool false => "false"
  | .num q => numToStr q
  | .str s => s
  | .arr xs => String.intercalate "," (jsDisplayList xs)
  | .obj _ => "[object Object]"

/-- `Array.prototype.toString` joins elements with ",", rendering `null`
elements as the empty string. -/
def jsDisplayList : List Json → List String
  | [] => []
  | x :: xs =>
      (match x with
       | .null => ""
       | y => jsDisplay y) :: jsDisplayList xs

end

mutual

/-- `JSON.stringify(v, null, 2)` of a parsed-JSON value, at the given current
indentation depth. -/
def jsonStr (ind : Nat) : Json → String
  | .null => "null"
  | .bool true => "true"
  | .bool false => "false"
  | .num q => numToStr q
  | .str s => quoteStr s
  | .arr [] => "[]"
  | .arr (x :: xs) =>
      "[\n" ++ String.intercalate ",\n" (jsonStrElems (ind + 2) (x :: xs))
        ++ "\n" ++ String.mk (List.replicate ind (Char.ofNat 32)) ++ "]"
  | .obj [] => "\x7b\x7d"
  | .obj (f :: fs) =>
      "\x7b\n" ++ String.intercalate ",\n" (jsonStrFields (ind + 2) (f :: fs))
        ++ "\n" ++ String.mk (List.replicate ind (Char.ofNat 32)) ++ "\x7d"

/-- Array elements, each on its own indented line. -/
def jsonStrElems (ind : Nat) : List Json → List String
  | [] => []
  | x :: xs =>
      (String.mk (List.replicate ind (Char.ofNat 32)) ++ jsonStr ind x)
        :: jsonStrElems ind xs

/-- Object members, each on its own indented line as `"key": value`. -/
def jsonStrFields (ind : Nat) : List (String × Json) → List String
  | [] => []
  | (k, v) :: fs =>
      (String.mk (List.replicate ind (Char.ofNat 32)) ++ quoteStr k ++ ": "
          ++ jsonStr ind v)
        :: jsonStrFields ind fs

end

/-- Result of `await response.json()`: the parsed value, or the rejection
value when the body is not valid JSON. -/
inductive BodyRead where
  | parsed (j : Json)
  | failed (e : JsError)
deriving Repr

/-- Outcome of the `fetch` call: a rejection (transport failure) or a
response with its HTTP status and body. -/
inductive FetchOutcome where
  | netFailure (e : JsError)
  | response (status : Nat) (body : BodyRead)
deriving Repr

/-- The `Response.ok` getter of fetch: status in the inclusive range
200-299. -/
def statusOk (status : Nat) : Bool :=
  decide (200 ≤ status) && decide (status ≤ 299)

/-- The truthiness chain `errorData.error || errorData.message` of index.ts
line 81, in the `Except` monad because reading a property of a `null` body
throws: `some v` is the first truthy operand, `none` means both operands
were falsy so the `||` chain falls through to its third operand. -/
def errFieldChain (errorData : Json) : Except JsError (Option Json) :=
  match getProp (some errorData) "error" with
  | .error e => .error e
  | .ok ev =>
    if truthyVal ev then .ok ev
    else
      match getProp (some errorData) "message" with
      | .error e => .error e
      | .ok mv => if truthyVal mv then .ok mv else .ok none

/-- The `errorMessage` of index.ts lines 78-84 rendered as by the template
literal on line 89: starts as `HTTP error! status: <status>`, replaced by
the first truthy of `errorData.error`/`errorData.message` when the body
parses; the inner `try`/`catch` swallows both parse failures and the throw
on a `null` body, keeping the default. -/
def nonOkErrorText (status : Nat) (body : BodyRead) : String :=
  let dfltMsg := "HTTP error! status: " ++ toString status
  match body with
  | .failed _ => dfltMsg
  | .parsed errorData =>
    match errFieldChain errorData with
    | .error _ => dfltMsg
    | .ok none => dfltMsg
    | .ok (some v) => jsDisplay v

/-- The `formattedResponse` object of index.ts lines 98-101; `content` is
`none` when `responseData.choices[0].message.content` is the JS `undefined`
(`JSON.stringify` then omits the key); `citations` is always defined because
`responseData.citations || []` yields `[]` on a falsy or absent field. -/
structure FormattedResponse where
  content : Option Json
  citations : Option Json
deriving Repr

/-- The success-path extraction `responseData.choices[0].message.content`
and `responseData.citations || []` (index.ts lines 98-101), with each
property access able to throw as in JS. -/
def extractFormatted (responseData : Json) : Except JsError FormattedResponse :=
  match getProp (some responseData) "choices" with
  | .error e => .error e
  | .ok choices =>
    match getProp choices "0" with
    | .error e => .error e
    | .ok first =>
      match getProp first "message" with
      | .error e => .error e
      | .ok message =>
        match getProp message "content" with
        | .error e => .error e
        | .ok content =>
          match getProp (some responseData) "citations" with
          | .error e => .error e
          | .ok rawCitations =>
              .ok ⟨content, if truthyVal rawCitations then rawCitations
                            else some (.arr [])⟩

/-- The fields `JSON.stringify` serializes for `formattedResponse`, in
insertion order, omitting `undefined`-valued keys. -/
def definedFields (fr : FormattedResponse) : List (String × Json) :=
  (match fr.content with
   | some c => [("content", c)]
   | none => [])
  ++ (match fr.citations with
      | some c => [("citations", c)]
      | none => [])

/-- `JSON.stringify(formattedResponse, null, 2)` of index.ts line 106. -/
def serializeFormatted (fr : FormattedResponse) : String :=
  jsonStr 0 (Json.obj (definedFields fr))

/-- The structured value the tool handler returns: the text of its single
content block, and the `isError` flag (absent on success, modelled as
`false`). -/
structure ToolResult where
  text : String
  isError : Bool
deriving Repr, DecidableEq

/-- The message the outer catch of index.ts line 110 extracts from the
caught value: `error.message` for an `Error` instance, else the fixed
fallback string. -/
def caughtText : JsError → String
  | .errorObj m => m
  | .nonError => "Unknown error occurred"

/-- The body of the `try` block of index.ts lines 48-108 after the `fetch`
resolved or rejected: a thrown/rejected value propagates as `Except.error`
to the outer catch. -/
def searchBody (out : FetchOutcome) : Except JsError ToolResult :=
  match out with
  | .netFailure e => .error e
  | .response status body =>
    if statusOk status then
      match body with
      | .failed e => .error e
      | .parsed responseData =>
        match extractFormatted responseData with
        | .error e => .error e
        | .ok fr => .ok ⟨serializeFormatted fr, false⟩
    else
      .ok ⟨"Perplexity API error: " ++ nonOkErrorText status body, true⟩

/-- The whole search tool handler (index.ts lines 45-120) for one
invocation: it builds the outbound payload from the configuration and the
request (the payload is the body of the `fetch` whose outcome is the `out`
parameter) and maps the outcome to a `ToolResult`, the outer catch turning
any thrown value into an error result. -/
def handleSearch (cfg : Config) (query : String) (srf : Option RecencyFilter)
    (out : FetchOutcome) : ToolResult :=
  let _requestBody := buildPayload cfg query srf
  match searchBody out with
  | .ok r => r
  | .error e => ⟨"Perplexity API error: " ++ caughtText e, true⟩

/-! Theorems about the adapter. -/

/-- Example configuration used to instantiate universally quantified
statements. -/
def cfgEx : Config := ⟨"key", "sonar-pro", 8192, 0.2⟩

/-- C1: for every invocation of the search tool and every outcome of the
outbound HTTP call — transport failure, non-2xx response, 2xx response whose
body fails to parse, and 2xx response with a parsed body (whether or not the
expected fields are present) — the handler returns a structured
`ToolResult`, either a success result or one with `isError` true; no thrown
value or rejection escapes to the caller. -/
theorem searchHandlerTotal (cfg : Config) (q : String) (srf : Option RecencyFilter) :
    (∀ e, (handleSearch cfg q srf (.netFailure e)).isError = true)
  ∧ (∀ st body, statusOk st = false →
      (handleSearch cfg q srf (.response st body)).isError = true)
  ∧ (∀ st e, statusOk st = true →
      (handleSearch cfg q srf (.response st (.failed e))).isError = true)
  ∧ (∀ st j, statusOk st = true →
      (∃ fr, extractFormatted j = .ok fr ∧
        handleSearch cfg q srf (.response st (.parsed j)) =
          ⟨serializeFormatted fr, false⟩)
      ∨ (∃ e, extractFormatted j = .error e ∧
          handleSearch cfg q srf (.response st (.parsed j)) =
            ⟨"Perplexity API error: " ++ caughtText e, true⟩)) := by
  refine ⟨fun e => rfl, fun st body h => ?_, fun st e h => ?_, fun st j h => ?_⟩
  · simp [handleSearch, searchBody, h]
  · simp [handleSearch, searchBody, h]
  · cases hex : extractFormatted j with
    | ok fr => exact Or.inl ⟨fr, rfl, by simp [handleSearch, searchBody, h, hex]⟩
    | error e => exact Or.inr ⟨e, rfl, by simp [handleSearch, searchBody, h, hex]⟩

/-- Witness for C1 at concrete inputs, discharging each hypothesis. -/
theorem searchHandlerTotal_witness :
    (handleSearch cfgEx "q" none (.netFailure .nonError)).isError = true
  ∧ (handleSearch cfgEx "q" none (.response 404 (.parsed (.obj [])))).isError = true
  ∧ (handleSearch cfgEx "q" none (.response 200 (.failed .nonError))).isError = true
  ∧ ((∃ fr, extractFormatted (Json.obj []) = .ok fr ∧
        handleSearch cfgEx "q" none (.response 200 (.parsed (.obj []))) =
          ⟨serializeFormatted fr, false⟩)
      ∨ (∃ e, extractFormatted (Json.obj []) = .error e ∧
          handleSearch cfgEx "q" none (.response 200 (.parsed (.obj []))) =
            ⟨"Perplexity API error: " ++ caughtText e, true⟩)) :=
  ⟨(searchHandlerTotal cfgEx "q" none).1 .nonError,
   (searchHandlerTotal cfgEx "q" none).2.1 404 (.parsed (.obj [])) (by decide),
   (searchHandlerTotal cfgEx "q" none).2.2.1 200 .nonError (by decide),
   (searchHandlerTotal cfgEx "q" none).2.2.2 200 (.obj []) (by decide)⟩

/-- Body of a 2xx response whose `citations` field is present but `null`. -/
def bodyNullCitations : Json :=
  .obj [("choices", .arr [.obj [("message", .obj [("content", .str "Paris")])]]),
        ("citations", .null)]

/-- C2 counterexample: on a 2xx response whose body carries
`citations: null` — a present field — the handler serializes `citations` as
the empty array, not as the field's value `null`, so the success payload's
`citations` does not equal the response body's `citations` field. -/
theorem successCitationsNotFieldValue :
    getProp (some bodyNullCitations) "citations" = .ok (some Json.null)
  ∧ handleSearch cfgEx "q" none (.response 200 (.parsed bodyNullCitations)) =
      ⟨serializeFormatted ⟨some (.str "Paris"), some (.arr [])⟩, false⟩
  ∧ serializeFormatted ⟨some (.str "Paris"), some (.arr [])⟩ ≠
      serializeFormatted ⟨some (.str "Paris"), some Json.null⟩ :=
  ⟨rfl, rfl, by decide⟩

/-- C2 amended: for every 2xx response whose parsed body has a `choices`
field that is an array whose first element is an object with an object-valued
`message` field, the success result serializes `content` equal to
`choices[0].message.content` (the key being omitted when that value is
absent) and `citations` equal to the body's `citations` field when that
field is present and truthy, and the empty array when it is absent or
falsy. -/
theorem successPayloadShape (cfg : Config) (q : String) (srf : Option RecencyFilter)
    (st : Nat) (fs gs hs : List (String × Json)) (rest : List Json)
    (h2 : statusOk st = true)
    (hch : lookupField fs "choices" = some (.arr (Json.obj gs :: rest)))
    (hmsg : lookupField gs "message" = some (.obj hs)) :
    handleSearch cfg q srf (.response st (.parsed (.obj fs))) =
      ⟨serializeFormatted
        ⟨lookupField hs "content",
         some (match lookupField fs "citations" with
               | some v => if v.truthy then v else .arr []
               | none => .arr [])⟩, false⟩ := by
  have hidx : canonicalIndex "0" = some 0 := rfl
  cases hcit : lookupField fs "citations" with
  | none =>
      simp [handleSearch, searchBody, h2, extractFormatted, getProp, hch, hmsg,
        hidx, hcit, truthyVal]
  | some v =>
      cases hv : v.truthy <;>
        simp [handleSearch, searchBody, h2, extractFormatted, getProp, hch, hmsg,
          hidx, hcit, truthyVal, hv]

/-- Witness for C2 at concrete inputs, discharging each hypothesis. -/
theorem successPayloadShape_witness :
    handleSearch cfgEx "q" none (.response 200 (.parsed (.obj
        [("choices", .arr [.obj [("message", .obj [("content", .str "Paris")])]]),
         ("citations", .arr [.str "https://example.com"])]))) =
      ⟨serializeFormatted ⟨some (.str "Paris"),
        some (.arr [.str "https://example.com"])⟩, false⟩ :=
  successPayloadShape cfgEx "q" none 200
    [("choices", .arr [.obj [("message", .obj [("content", .str "Paris")])]]),
     ("citations", .arr [.str "https://example.com"])]
    [("message", .obj [("content", .str "Paris")])]
    [("content", .str "Paris")] [] (by decide) rfl rfl

/-- C3 counterexample: a 401 response whose valid-JSON body contains the
`error` field with the empty-string value yields the status-based fallback
message, not the field's value (which would give the bare prefix). -/
theorem errorFieldEmptyNotPropagated :
    handleSearch cfgEx "q" none (.response 401 (.parsed (.obj [("error", .str "")]))) =
      ⟨"Perplexity API error: HTTP error! status: 401", true⟩
  ∧ "Perplexity API error: HTTP error! status: 401" ≠ "Perplexity API error: " :=
  ⟨rfl, by decide⟩

/-- C3 amended: for every non-2xx response whose body is valid JSON (an
object) containing an `error` field whose value is a non-empty string, the
error result's text is exactly that value prefixed by
"Perplexity API error: ", and `isError` is true. -/
theorem errorFieldPropagates (cfg : Config) (q : String) (srf : Option RecencyFilter)
    (st : Nat) (fs : List (String × Json)) (s : String)
    (h2 : statusOk st = false)
    (he : lookupField fs "error" = some (.str s))
    (hne : s ≠ "") :
    handleSearch cfg q srf (.response st (.parsed (.obj fs))) =
      ⟨"Perplexity API error: " ++ s, true⟩ := by
  simp [handleSearch, searchBody, h2, nonOkErrorText, errFieldChain, getProp,
    he, truthyVal, Json.truthy, hne, jsDisplay]

/-- Witness for C3 at the spec's scenario, discharging each hypothesis. -/
theorem errorFieldPropagates_witness :
    handleSearch cfgEx "q" none
        (.response 401 (.parsed (.obj [("error", .str "Invalid API key")]))) =
      ⟨"Perplexity API error: Invalid API key", true⟩ :=
  errorFieldPropagates cfgEx "q" none 401 [("error", .str "Invalid API key")]
    "Invalid API key" (by decide) rfl (by decide)

/-- C4: for every non-2xx response whose body cannot be parsed as JSON, the
error result's text contains (indeed ends with) the decimal HTTP status
code. -/
theorem unparsableBodyStatusInMessage (cfg : Config) (q : String)
    (srf : Option RecencyFilter) (st : Nat) (e : JsError)
    (h2 : statusOk st = false) :
    ∃ pre, handleSearch cfg q srf (.response st (.failed e)) =
      ⟨pre ++ toString st, true⟩ := by
  refine ⟨"Perplexity API error: HTTP error! status: ", ?_⟩
  simp only [handleSearch, searchBody, h2, Bool.false_eq_true, if_false,
    nonOkErrorText]
  rfl

/-- Witness for C4 at concrete inputs, discharging the hypothesis. -/
theorem unparsableBodyStatusInMessage_witness :
    ∃ pre, handleSearch cfgEx "q" none
        (.response 404 (.failed (.errorObj "Unexpected token"))) =
      ⟨pre ++ toString 404, true⟩ :=
  unparsableBodyStatusInMessage cfgEx "q" none 404 (.errorObj "Unexpected token")
    (by decide)

/-- C5: for every configuration and query, the outbound payload has no
`search_recency_filter` key when no recency filter is supplied, and carries
exactly the supplied token under `search_recency_filter` when one of the
four filters is supplied. -/
theorem recencyFilterInPayload (cfg : Config) (q : String) :
    lookupField (buildPayload cfg q none) "search_recency_filter" = none
  ∧ ∀ f : RecencyFilter,
      lookupField (buildPayload cfg q (some f)) "search_recency_filter" =
        some (.str f.toStr) :=
  ⟨rfl, fun f => by cases f <;> rfl⟩

/-- C6: for every configuration, query and optional filter, the outbound
payload carries the configured model under `model`, exactly one user-role
message whose content is the query verbatim under `messages`, the configured
limits under `max_tokens` and `temperature`, and no keys besides these four
plus the optional `search_recency_filter`. -/
theorem payloadShape (cfg : Config) (q : String) (srf : Option RecencyFilter) :
    lookupField (buildPayload cfg q srf) "model" = some (.str cfg.model)
  ∧ lookupField (buildPayload cfg q srf) "messages" =
      some (.arr [.obj [("role", .str "user"), ("content", .str q)]])
  ∧ lookupField (buildPayload cfg q srf) "max_tokens" = some (.num cfg.maxTokens)
  ∧ lookupField (buildPayload cfg q srf) "temperature" =
      some (.num cfg.temperature)
  ∧ (buildPayload cfg q srf).map Prod.fst =
      ["model", "messages", "max_tokens", "temperature"]
        ++ match srf with
           | some _ => ["search_recency_filter"]
           | none => [] := by
  cases srf <;> exact ⟨rfl, rfl, rfl, rfl, rfl⟩

/-- C7: the handler is deterministic — two invocations with the same
configuration, query, recency filter and fetch outcome produce equal
results; the adapter keeps no hidden state and draws no randomness. -/
theorem handlerDeterministic (cfg : Config) (q : String)
    (srf : Option RecencyFilter) (out : FetchOutcome) (r₁ r₂ : ToolResult)
    (h₁ : r₁ = handleSearch cfg q srf out)
    (h₂ : r₂ = handleSearch cfg q srf out) : r₁ = r₂ :=
  h₁.trans h₂.symm

/-- Witness for C7 at a concrete invocation, discharging each hypothesis. -/
theorem handlerDeterministic_witness :
    handleSearch cfgEx "q" none (.netFailure .nonError) =
      handleSearch cfgEx "q" none (.netFailure .nonError) :=
  handlerDeterministic cfgEx "q" none (.netFailure .nonError) _ _ rfl rfl

/-- Helper: a model value accepted by the `model` field schema is one of the
two recognized literals. -/
theorem parseModelField_mem (o : Option Json) (m : String)
    (h : parseModelField o = .ok m) : m = "sonar" ∨ m = "sonar-pro" := by
  cases o with
  | none => cases h; exact Or.inr rfl
  | some j =>
      cases j with
      | str s =>
          simp only [parseModelField] at h
          split at h
          · cases h; assumption
          · cases h
      | null => simp [parseModelField] at h
      | bool b => simp [parseModelField] at h
      | num q => simp [parseModelField] at h
      | arr xs => simp [parseModelField] at h
      | obj fs => simp [parseModelField] at h

/-- C8: configuration parsing applies the documented defaults — omitted
`model`, `maxTokens` and `temperature` become "sonar-pro", 8192 and 0.2 —
and every successfully parsed configuration has `model` equal to "sonar" or
"sonar-pro" (anything else is rejected at construction). -/
theorem configDefaultsAndModelRestriction :
    (∀ k : String, parseConfig ⟨some (.str k), none, none, none⟩ =
        .ok ⟨k, "sonar-pro", 8192, 0.2⟩)
  ∧ ∀ r c, parseConfig r = .ok c → c.model = "sonar" ∨ c.model = "sonar-pro" := by
  refine ⟨fun k => rfl, fun r c h => ?_⟩
  unfold parseConfig at h
  cases hk : parseKeyField r.perplexityApiKey <;>
    cases hm : parseModelField r.model <;>
      cases hmt : parseNumField 8192 r.maxTokens <;>
        cases htp : parseNumField 0.2 r.temperature <;>
          rw [hk, hm, hmt, htp] at h <;> cases h
  exact parseModelField_mem r.model _ hm

/-- Witness for C8 at concrete inputs, discharging each hypothesis. -/
theorem configDefaultsAndModelRestriction_witness :
    parseConfig ⟨some (.str "k"), none, none, none⟩ =
      .ok ⟨"k", "sonar-pro", 8192, 0.2⟩
  ∧ ((⟨"k", "sonar", 1024, 0⟩ : Config).model = "sonar"
      ∨ (⟨"k", "sonar", 1024, 0⟩ : Config).model = "sonar-pro") :=
  ⟨configDefaultsAndModelRestriction.1 "k",
   configDefaultsAndModelRestriction.2
     ⟨some (.str "k"), some (.str "sonar"), some (.num 1024), some (.num 0)⟩
     ⟨"k", "sonar", 1024, 0⟩ rfl⟩

/-- C9: in the non-2xx branch, extraction is by truthiness, not presence —
when the body's `error` field is present but falsy (for instance the empty
string), the message falls back to the `message` field when that is truthy,
and otherwise to the generic `HTTP error! status: <code>` text, never
returning the falsy `error` value itself. -/
theorem errorFieldFalsyFallsBack (cfg : Config) (q : String)
    (srf : Option RecencyFilter) (st : Nat) (fs : List (String × Json)) (v : Json)
    (h2 : statusOk st = false)
    (he : lookupField fs "error" = some v)
    (hv : v.truthy = false) :
    handleSearch cfg q srf (.response st (.parsed (.obj fs))) =
      ⟨"Perplexity API error: " ++
        (match lookupField fs "message" with
         | some w => if w.truthy then jsDisplay w
                     else "HTTP error! status: " ++ toString st
         | none => "HTTP error! status: " ++ toString st), true⟩ := by
  cases hm : lookupField fs "message" with
  | none =>
      simp [handleSearch, searchBody, h2, nonOkErrorText, errFieldChain, getProp,
        he, hm, truthyVal, hv]
  | some w =>
      cases hw : w.truthy <;>
        simp [handleSearch, searchBody, h2, nonOkErrorText, errFieldChain,
          getProp, he, hm, truthyVal, hv, hw]

/-- Witness for C9 at concrete inputs, discharging each hypothesis. -/
theorem errorFieldFalsyFallsBack_witness :
    handleSearch cfgEx "q" none (.response 400 (.parsed
        (.obj [("error", .str ""), ("message", .str "boom")]))) =
      ⟨"Perplexity API error: boom", true⟩ := by
  simpa using errorFieldFalsyFallsBack cfgEx "q" none 400
    [("error", .str ""), ("message", .str "boom")] (.str "") (by decide) rfl
    (by decide)

/-- C10: every error result's text begins with the fixed prefix
"Perplexity API error: " — transport failures and malformed 2xx bodies
included, not only remote API errors — and when the caught value is not an
`Error` carrying a message, the text is exactly
"Perplexity API error: Unknown error occurred". -/
theorem errorResultsPrefixed :
    (∀ (cfg : Config) (q : String) (srf : Option RecencyFilter)
        (out : FetchOutcome), (handleSearch cfg q srf out).isError = true →
      ∃ s, (handleSearch cfg q srf out).text = "Perplexity API error: " ++ s)
  ∧ (∀ (cfg : Config) (q : String) (srf : Option RecencyFilter),
      handleSearch cfg q srf (.netFailure .nonError) =
        ⟨"Perplexity API error: Unknown error occurred", true⟩)
  ∧ (∀ (cfg : Config) (q : String) (srf : Option RecencyFilter) (st : Nat),
      statusOk st = true →
        handleSearch cfg q srf (.response st (.failed .nonError)) =
          ⟨"Perplexity API error: Unknown error occurred", true⟩) := by
  refine ⟨fun cfg q srf out hErr => ?_, fun cfg q srf => rfl,
    fun cfg q srf st h => by simp [handleSearch, searchBody, h, caughtText]⟩
  cases out with
  | netFailure e => exact ⟨caughtText e, rfl⟩
  | response st body =>
      cases hst : statusOk st with
      | false =>
          exact ⟨nonOkErrorText st body, by simp [handleSearch, searchBody, hst]⟩
      | true =>
          cases body with
          | failed e =>
              exact ⟨caughtText e, by simp [handleSearch, searchBody, hst]⟩
          | parsed j =>
              cases hex : extractFormatted j with
              | ok fr =>
                  exact absurd hErr
                    (by simp [handleSearch, searchBody, hst, hex])
              | error e =>
                  exact ⟨caughtText e,
                    by simp [handleSearch, searchBody, hst, hex]⟩

/-- Witness for C10 at concrete inputs, discharging each hypothesis. -/
theorem errorResultsPrefixed_witness :
    (∃ s, (handleSearch cfgEx "q" none
        (.response 500 (.failed (.errorObj "boom")))).text =
      "Perplexity API error: " ++ s)
  ∧ handleSearch cfgEx "q" none (.response 200 (.failed .nonError)) =
      ⟨"Perplexity API error: Unknown error occurred", true⟩ :=
  ⟨errorResultsPrefixed.1 cfgEx "q" none
     (.response 500 (.failed (.errorObj "boom"))) rfl,
   errorResultsPrefixed.2.2 cfgEx "q" none 200 (by decide)⟩

end PerplexitySearch
